import Mathlib

/-!
Shallow embedding of `src/oaipmh/server.py` from the pyoai repository:
the OAI-PMH document-construction engine (`XMLTreeServer`), the verb
dispatcher (`XMLServer.handleVerb`), the base backend class (`Server`)
and the default Dublin Core metadata writer (`oai_dc_writer`).

XML element trees built by lxml are modelled as a plain inductive type
with a qualified tag, an ordered attribute list, an (optional, root-only)
namespace-binding map, optional text and an ordered child list.  Python
datetimes are a record of numeric fields.  Code of the repository that is
not under `src/` (`common.py`, `metadata.py`) is modelled from the spec
where a claim needs it; each such definition says so in its doc comment.
-/

/-- Namespace constant `NS_OAIPMH` from server.py line 7. -/
def NS_OAIPMH : String := "http://www.openarchives.org/OAI/2.0/"

/-- Namespace constant `NS_XSI` from server.py line 8. -/
def NS_XSI : String := "http://www.w3.org/2001/XMLSchema-instance"

/-- Namespace constant `NS_OAIDC` from server.py line 9. -/
def NS_OAIDC : String := "http://www.openarchives.org/OAI/2.0/oai_dc/"

/-- Namespace constant `NS_DC` from server.py line 10. -/
def NS_DC : String := "http://purl.org/dc/elements/1.1/"

/-- Qualified-name helper `nsoai` from server.py lines 247-248:
Clark-form name with the OAI-PMH namespace in braces. -/
def nsoai (name : String) : String := "\x7b" ++ NS_OAIPMH ++ "\x7d" ++ name

/-- Qualified-name helper `nsoaidc` from server.py lines 250-251. -/
def nsoaidc (name : String) : String := "\x7b" ++ NS_OAIDC ++ "\x7d" ++ name

/-- Qualified-name helper `nsdc` from server.py lines 253-254. -/
def nsdc (name : String) : String := "\x7b" ++ NS_DC ++ "\x7d" ++ name

/-- The qualified attribute name `xsi:schemaLocation` set on the root
(server.py line 187) and on the Dublin Core wrapper (line 236). -/
def xsiSchemaLocationKey : String := "\x7b" ++ NS_XSI ++ "\x7dschemaLocation"

/-- The schema-location value set on the root element, server.py lines 188-189. -/
def schemaLocationValue : String :=
  "http://www.openarchives.org/OAI/2.0/ http://www.openarchives.org/OAI/2.0/OAI-PMH.xsd"

/-- The schema-location value set on the Dublin Core wrapper, server.py line 237. -/
def dcSchemaLocation : String := NS_DC ++ " http://www.openarchives.org/OAI/2.0/oai_dc.xsd"

/-- The `nsmap` dictionary from server.py lines 12-17: the four fixed
namespace bindings declared on the root element (default, xsi, oai_dc, dc). -/
def oaiNsmap : List (Option String × String) :=
  [(none, NS_OAIPMH), (some "xsi", NS_XSI), (some "oai_dc", NS_OAIDC), (some "dc", NS_DC)]

/-- An lxml element: qualified tag, ordered attributes, namespace bindings
(nonempty only on the root, where the source passes `nsmap=nsmap`),
optional text, ordered children. -/
inductive Element where
  | mk (tag : String) (attrs : List (String × String))
      (nsBindings : List (Option String × String))
      (text : Option String) (children : List Element)

/-- Tag of an element. -/
def Element.tag : Element → String
  | Element.mk t _ _ _ _ => t

/-- Ordered attribute list of an element. -/
def Element.attrs : Element → List (String × String)
  | Element.mk _ a _ _ _ => a

/-- Namespace bindings declared on an element. -/
def Element.nsBindings : Element → List (Option String × String)
  | Element.mk _ _ n _ _ => n

/-- Text content of an element. -/
def Element.text : Element → Option String
  | Element.mk _ _ _ t _ => t

/-- Ordered child list of an element. -/
def Element.children : Element → List Element
  | Element.mk _ _ _ _ c => c

/-- Placeholder element used as the default for positional child lookup. -/
def defaultElement : Element := Element.mk "" [] [] none []

/-- A leaf `SubElement` whose only content is its text, the pervasive
pattern `e = SubElement(parent, tag); e.text = value` of server.py. -/
def simpleE (tag value : String) : Element := Element.mk tag [] [] (some value) []

/-- Appending one child to an element, as lxml `SubElement(parent, ...)` does. -/
def appendChild (e c : Element) : Element :=
  Element.mk (Element.tag e) (Element.attrs e) (Element.nsBindings e) (Element.text e)
    (Element.children e ++ [c])

/-- A Python `datetime` value with the fields this code touches. -/
structure PyDatetime where
  year : Nat
  month : Nat
  day : Nat
  hour : Nat
  minute : Nat
  second : Nat
  microsecond : Nat
deriving DecidableEq

/-- The `datetime.replace(microsecond=0)` call of server.py line 194. -/
def truncateSec (dt : PyDatetime) : PyDatetime :=
  PyDatetime.mk dt.year dt.month dt.day dt.hour dt.minute dt.second 0

/-- Zero-padded two-digit decimal rendering. -/
def pad2 (n : Nat) : String := if n < 10 then "0" ++ toString n else toString n

/-- Zero-padded four-digit decimal rendering. -/
def pad4 (n : Nat) : String :=
  if n < 10 then "000" ++ toString n
  else if n < 100 then "00" ++ toString n
  else if n < 1000 then "0" ++ toString n
  else toString n

/-- Modelled from the spec: `common.datetime_to_datestamp` (the module
`oaipmh/common.py` is not under src/).  Per the spec, datestamp text is
always `YYYY-MM-DDThh:mm:ssZ`, second granularity, UTC. -/
def datetime_to_datestamp (dt : PyDatetime) : String :=
  pad4 dt.year ++ "-" ++ pad2 dt.month ++ "-" ++ pad2 dt.day ++ "T"
    ++ pad2 dt.hour ++ ":" ++ pad2 dt.minute ++ ":" ++ pad2 dt.second ++ "Z"

/-- Written from the spec's words, for refinement comparison only: a
datestamp "formatted per the repository's declared granularity" — day
granularity `YYYY-MM-DD` renders the date only, second granularity
renders the full `YYYY-MM-DDThh:mm:ssZ` form. -/
def formatPerGranularity (granularity : String) (dt : PyDatetime) : String :=
  if granularity = "YYYY-MM-DD" then pad4 dt.year ++ "-" ++ pad2 dt.month ++ "-" ++ pad2 dt.day
  else datetime_to_datestamp dt

/-- The Python value bound to the `compression` field of the identity.
The base `Server.identify` (server.py line 44) supplies the plain string
`identity`, while a conforming backend supplies a list of strings; Python
typing admits both, so the embedding keeps the union. -/
inductive PyCompression where
  | ofString (s : String)
  | ofList (l : List String)
deriving DecidableEq

/-- Modelled from the spec: `common.ServerIdentify` (not under src/) is a
plain record of the identity fields, each read back by an accessor of the
same name. -/
structure ServerIdentify where
  repositoryName : String
  baseURL : String
  protocolVersion : String
  adminEmails : List String
  earliestDatestamp : PyDatetime
  deletedRecord : String
  granularity : String
  compression : PyCompression

/-- Modelled from the spec: `common.Header` (not under src/) carries an
identifier, a datestamp, an ordered `setSpec` list and a deleted flag;
this engine reads the first three through accessors. -/
structure Header where
  identifier : String
  datestamp : PyDatetime
  setSpec : List String
  deleted : Bool

/-- A metadata record map: the ordered multi-valued mapping from field
name to list of string values that `metadata.getMap()` exposes. -/
abbrev MetMap := List (String × List String)

/-- Python `map.get(name, [])` over the record map (server.py line 243):
the value list of the first binding of `name`, or `[]` when absent. -/
def mapGet (m : MetMap) (name : String) : List String :=
  match m.find? (fun kv => kv.1 = name) with
  | some kv => kv.2
  | none => []

/-- A metadata writer renders one record map into the fragment element it
appends under the `metadata` wrapper. -/
abbrev WriterFun := MetMap → Element

/-- Modelled from the spec: the Metadata Writer Registry of
`oaipmh/metadata.py` (not under src/) is a mapping from metadataPrefix to
writer; looking up an unregistered prefix has no writer to offer. -/
abbrev Registry := List (String × WriterFun)

/-- Registry lookup by metadataPrefix. -/
def lookupWriter (registry : Registry) ( pfx : String) : Option WriterFun :=
  match registry.find? (fun kv => kv.1 = pfx) with
  | some kv => some kv.2
  | none => none

/-- Errors this engine can signal.  `badVerb` and `badArgument` come from
the dispatch layer, `unsupportedMetadataFormat` from registry lookup;
`stubFailure` stands for the crash a dispatch to the unimplemented
`getRecord` (body `pass`, server.py line 80) or the absent `listSets`
method would produce. -/
inductive OAIError where
  | badVerb
  | badArgument
  | unsupportedMetadataFormat
  | stubFailure
deriving DecidableEq

/-- Attribute construction of `_outputEnvelope` (server.py lines 197-201):
keep only the keyword arguments whose value is not None, in call-site
order, rewriting the key `from_` to the protocol keyword `from`. -/
def requestAttrs : List (String × Option String) → List (String × String)
  | [] => []
  | (_, none) :: rest => requestAttrs rest
  | (k, some v) :: rest => (if k = "from_" then "from" else k, v) :: requestAttrs rest

/-- The attribute list contributed by one optional argument: nothing when
it is omitted, one attribute when it is supplied. -/
def optAttr (k : String) : Option String → List (String × String)
  | none => []
  | some v => [(k, v)]

/-- The envelope of `_outputEnvelope` (server.py lines 185-204): root
`OAI-PMH` element with the four fixed namespace bindings and the fixed
schema-location attribute, a `responseDate` child holding the current
time with microseconds zeroed rendered as a datestamp, and a `request`
child whose attributes are the non-null keyword arguments and whose text
is the backend identity's base URL. -/
def outputEnvelope (baseURL : String) (now : PyDatetime)
    (kw : List (String × Option String)) : Element :=
  Element.mk (nsoai "OAI-PMH") [(xsiSchemaLocationKey, schemaLocationValue)] oaiNsmap none
    [Element.mk (nsoai "responseDate") [] [] (some (datetime_to_datestamp (truncateSec now))) [],
     Element.mk (nsoai "request") (requestAttrs kw) [] (some baseURL) []]

/-- Child 0 of a document root: the `responseDate` element. -/
def responseDateOf (e : Element) : Element := (Element.children e).getD 0 defaultElement

/-- Child 1 of a document root: the `request` element. -/
def requestOf (e : Element) : Element := (Element.children e).getD 1 defaultElement

/-- Child 2 of a document root: the verb-result element. -/
def verbResultOf (e : Element) : Element := (Element.children e).getD 2 defaultElement

/-- The fixed leading children of the `Identify` body, server.py lines
85-103: repositoryName, baseURL, protocolVersion, one adminEmail per
entry, earliestDatestamp, deletedRecord, granularity. -/
def identifyFixedChildren (idn : ServerIdentify) : List Element :=
  [simpleE (nsoai "repositoryName") idn.repositoryName,
   simpleE (nsoai "baseURL") idn.baseURL,
   simpleE (nsoai "protocolVersion") idn.protocolVersion]
  ++ idn.adminEmails.map (fun a => simpleE (nsoai "adminEmail") a)
  ++ [simpleE (nsoai "earliestDatestamp") (datetime_to_datestamp idn.earliestDatestamp),
      simpleE (nsoai "deletedRecord") idn.deletedRecord,
      simpleE (nsoai "granularity") idn.granularity]

/-- The compression children of the `Identify` body, server.py lines
104-108: when the compression value is Python-unequal to the list
`['identity']`, iterate it and emit one `compression` child per iterate.
A string is never equal to that list, and iterating a string yields its
one-character substrings; a list yields its entries. -/
def compressionChildren : PyCompression → List Element
  | PyCompression.ofList l =>
      if l = ["identity"] then []
      else l.map (fun c => simpleE (nsoai "compression") c)
  | PyCompression.ofString s =>
      (String.toList s).map (fun c => simpleE (nsoai "compression") (String.mk [c]))

/-- Document built by `XMLTreeServer.identify` (server.py lines 82-109)
from the identity the backend returned and the current time. -/
def identifyTree (idn : ServerIdentify) (now : PyDatetime) : Element :=
  appendChild (outputEnvelope idn.baseURL now [("verb", some "Identify")])
    (Element.mk (nsoai "Identify") [] [] none
      (identifyFixedChildren idn ++ compressionChildren idn.compression))

/-- One rendered header, `_outputHeader` (server.py lines 206-214):
`header` element whose children are identifier, formatted datestamp, then
one `setSpec` child per entry of the header's setSpec list, in order. -/
def headerElem (h : Header) : Element :=
  Element.mk (nsoai "header") [] [] none
    ([simpleE (nsoai "identifier") h.identifier,
      simpleE (nsoai "datestamp") (datetime_to_datestamp h.datestamp)]
      ++ h.setSpec.map (fun s => simpleE (nsoai "setSpec") s))

/-- Document built by `XMLTreeServer.listIdentifiers` (server.py lines
111-132): envelope with the keyword arguments in the call-site order of
line 113 (verb, from_, metadataPrefix, until, set, resumptionToken), then
a `ListIdentifiers` element holding one rendered header per header the
backend returned. -/
def listIdentifiersTree (idn : ServerIdentify) (now : PyDatetime) ( pfx : String)
    (from_ until_ set_ resumptionToken : Option String) (headers : List Header) : Element :=
  appendChild
    (outputEnvelope idn.baseURL now
      [("verb", some "ListIdentifiers"), ("from_", from_), ("metadataPrefix", some pfx),
       ("until", until_), ("set", set_), ("resumptionToken", resumptionToken)])
    (Element.mk (nsoai "ListIdentifiers") [] [] none (headers.map headerElem))

/-- One `metadataFormat` element of `listMetadataFormats`, server.py
lines 142-155: metadataPrefix, schema, metadataNamespace children. -/
def metadataFormatElem : String × String × String → Element
  | (p, schema, ns) =>
      Element.mk (nsoai "metadataFormat") [] [] none
        [simpleE (nsoai "metadataPrefix") p,
         simpleE (nsoai "schema") schema,
         simpleE (nsoai "metadataNamespace") ns]

/-- Document built by `XMLTreeServer.listMetadataFormats` (server.py
lines 134-156). -/
def listMetadataFormatsTree (idn : ServerIdentify) (now : PyDatetime)
    (identifier : Option String) (formats : List (String × String × String)) : Element :=
  appendChild
    (outputEnvelope idn.baseURL now
      [("verb", some "ListMetadataFormats"), ("identifier", identifier)])
    (Element.mk (nsoai "ListMetadataFormats") [] [] none (formats.map metadataFormatElem))

/-- The empty `metadata` wrapper `_outputMetadata` creates (server.py
line 217) before handing it to the registry writer. -/
def emptyMetadata : Element := Element.mk (nsoai "metadata") [] [] none []

/-- A `record` element (server.py line 179) with its header child and its
`metadata` wrapper child. -/
def recordElem (h : Header) (meta : Element) : Element :=
  Element.mk (nsoai "record") [] [] none [headerElem h, meta]

/-- The loop body of `XMLTreeServer.listRecords` (server.py lines
178-181) together with `_outputMetadata` (lines 216-219): for each
(header, record-map) pair, append a `record` element, render the header
into it, append the `metadata` wrapper, then dispatch to the registry
writer.  When the prefix has no registered writer the dispatch fails with
`unsupportedMetadataFormat` at that point, so the record reached so far
holds its complete header and an empty `metadata` wrapper, and no later
record is processed.  Returns the `record` children accumulated when the
failure (if any) occurs, plus the failure. -/
def buildRecordElems (registry : Registry) ( pfx : String) :
    List (Header × MetMap) → List Element × Option OAIError
  | [] => ([], none)
  | (h, m) :: rest =>
    match lookupWriter registry pfx with
    | some w =>
        let res := buildRecordElems registry pfx rest
        (recordElem h (Element.mk (nsoai "metadata") [] [] none [w m]) :: res.1, res.2)
    | none => ([recordElem h emptyMetadata], some OAIError.unsupportedMetadataFormat)

/-- Document construction of `XMLTreeServer.listRecords` (server.py lines
158-183): envelope with the keyword arguments in the call-site order of
line 160 (verb, metadataPrefix, from_, until, set, resumptionToken), then
a `ListRecords` element holding one `record` per backend triple.  An
error raised inside the loop propagates: the call returns no document. -/
def listRecordsTree (registry : Registry) (idn : ServerIdentify) (now : PyDatetime)
    ( pfx : String) (from_ until_ set_ resumptionToken : Option String)
    (records : List (Header × MetMap)) : Except OAIError Element :=
  match buildRecordElems registry pfx records with
  | (es, none) =>
      Except.ok
        (appendChild
          (outputEnvelope idn.baseURL now
            [("verb", some "ListRecords"), ("metadataPrefix", some pfx), ("from_", from_),
             ("until", until_), ("set", set_), ("resumptionToken", resumptionToken)])
          (Element.mk (nsoai "ListRecords") [] [] none es))
  | (_, some err) => Except.error err

/-- The default Dublin Core writer `oai_dc_writer`, server.py lines
234-245, specialised to the loop over one fixed field name list: for each
name in order, one element per value of the record map's list for that
name. -/
def dcElems (m : MetMap) : List String → List Element
  | [] => []
  | n :: rest => (mapGet m n).map (fun v => simpleE (nsdc n) v) ++ dcElems m rest

/-- The fixed, ordered Dublin Core field list of server.py lines 239-242. -/
def dcFieldList : List String :=
  ["title", "creator", "subject", "description", "publisher",
   "contributor", "date", "type", "format", "identifier",
   "source", "language", "relation", "coverage", "rights"]

/-- The default Dublin Core writer `oai_dc_writer` (server.py lines
234-245): a `dc` wrapper carrying the Dublin Core schema-location
attribute, containing the field elements in fixed field order. -/
def oai_dc_writer (m : MetMap) : Element :=
  Element.mk (nsoaidc "dc") [(xsiSchemaLocationKey, dcSchemaLocation)] [] none
    (dcElems m dcFieldList)

/-- Verb-name normalization of `XMLServer.handleVerb` (server.py line
230): lower-case only the first character, keep the rest unchanged. -/
def lowerFirst (s : String) : String :=
  match String.toList s with
  | [] => ""
  | c :: cs => String.mk (Char.toLower c :: cs)

/-- The six method names a verb can resolve to, one per protocol verb of
the `XMLTreeServer` interface. -/
def verbMethodNames : List String :=
  ["getRecord", "identify", "listIdentifiers", "listMetadataFormats",
   "listRecords", "listSets"]

/-- Modelled from the spec: `common.ValidatingOAIPMH` (not under src/)
resolves the incoming verb name against the fixed set of six protocol
verbs and fails with `BadVerb` otherwise; the normalization — lower-case
only the first character — is `XMLServer.handleVerb`, server.py line 230. -/
def resolveVerb (verb : String) : Option String :=
  if lowerFirst verb ∈ verbMethodNames then some (lowerFirst verb) else none

/-- Keyword arguments a dispatched call may carry.  The source name of
the `pfx` field is the metadata prefix argument. -/
structure VerbArgs where
  identifier : Option String
  pfx : Option String
  from_ : Option String
  until_ : Option String
  set_ : Option String
  resumptionToken : Option String

/-- The data the backend would supply to one dispatched call: its
identity and the sequences its listing operations return. -/
structure BackendData where
  identity : ServerIdentify
  headers : List Header
  records : List (Header × MetMap)
  formats : List (String × String × String)

/-- The dispatcher: `XMLServer.handleVerb` (server.py lines 229-232)
combined with the spec-modelled verb check of `common.ValidatingOAIPMH`
(not under src/).  An unrecognized verb name fails with `badVerb` and
produces no document; a recognized one dispatches to the matching tree
builder.  A required metadata prefix that is absent fails with
`badArgument` (spec-modelled argument validation); the `getRecord` and
`listSets` stubs fail with `stubFailure` (body `pass` at server.py line
80, and no such method at all, respectively). -/
def handleVerb (registry : Registry) (b : BackendData) (now : PyDatetime)
    (verb : String) (a : VerbArgs) : Except OAIError Element :=
  match resolveVerb verb with
  | none => Except.error OAIError.badVerb
  | some m =>
    if m = "identify" then Except.ok (identifyTree b.identity now)
    else if m = "listIdentifiers" then
      match a.pfx with
      | some p =>
          Except.ok (listIdentifiersTree b.identity now p a.from_ a.until_ a.set_
            a.resumptionToken b.headers)
      | none => Except.error OAIError.badArgument
    else if m = "listMetadataFormats" then
      Except.ok (listMetadataFormatsTree b.identity now a.identifier b.formats)
    else if m = "listRecords" then
      match a.pfx with
      | some p =>
          listRecordsTree registry b.identity now p a.from_ a.until_ a.set_
            a.resumptionToken b.records
      | none => Except.error OAIError.badArgument
    else Except.error OAIError.stubFailure

/-- Python exceptions relevant to the base `Server` stubs. -/
inductive PyExc where
  | nameError
  | notImplementedError
deriving DecidableEq

/-- Evaluating a bare name in a `raise` statement of server.py: the
builtins bind `NotImplementedError`; neither the module nor the builtins
bind the lower-cased `notImplementedError` (Python names are
case-sensitive), so that name does not evaluate. -/
def evalExcName (n : String) : Option PyExc :=
  if n = "NotImplementedError" then some PyExc.notImplementedError else none

/-- A `raise <name>` statement: evaluating an unbound name itself raises
`NameError`; otherwise the named exception is raised. -/
def raiseStmt (n : String) : PyExc :=
  match evalExcName n with
  | some e => e
  | none => PyExc.nameError

/-- The exception `Server.getRecord` raises: server.py line 33 is
`raise notImplementedError`, naming the undefined lower-cased name. -/
def Server.getRecord : PyExc := raiseStmt "notImplementedError"

/-- The exception `Server.listIdentifiers` raises, server.py line 48. -/
def Server.listIdentifiers : PyExc := raiseStmt "NotImplementedError"

/-- The exception `Server.listMetadataFormats` raises, server.py line 51. -/
def Server.listMetadataFormats : PyExc := raiseStmt "NotImplementedError"

/-- The exception `Server.listRecords` raises, server.py line 55. -/
def Server.listRecords : PyExc := raiseStmt "NotImplementedError"

/-- The exception `Server.listSets` raises, server.py line 58. -/
def Server.listSets : PyExc := raiseStmt "NotImplementedError"

/-- The identity the base `Server.identify` (server.py lines 35-44)
builds: fixed protocolVersion, deletedRecord and granularity, and
compression supplied as the plain string `identity`.  The earliest
datestamp comes from the subclass hook `_getEarliestDatestamp`, passed
here as an argument. -/
def Server.identify (repositoryName baseURL : String) (adminEmails : List String)
    (earliest : PyDatetime) : ServerIdentify :=
  ServerIdentify.mk repositoryName baseURL "2.0" adminEmails earliest
    "transient" "YYYY-MM-DDThh:mm:ssZ" (PyCompression.ofString "identity")

/-- Envelope shape asserted of every produced document: the root declares
exactly the four fixed namespace bindings and the fixed schema-location
attribute, and its children are responseDate, request, and exactly one
verb-result element, in that order. -/
def envelopeShape (e : Element) : Prop :=
  Element.nsBindings e = oaiNsmap
  ∧ Element.attrs e = [(xsiSchemaLocationKey, schemaLocationValue)]
  ∧ Element.tag e = nsoai "OAI-PMH"
  ∧ ∃ rd rq body, Element.children e = [rd, rq, body]
      ∧ Element.tag rd = nsoai "responseDate"
      ∧ Element.tag rq = nsoai "request"

/-- Concrete wall-clock instant used by the closed witnesses. -/
def now0 : PyDatetime := PyDatetime.mk 2006 5 4 3 2 1 500000

/-- Concrete datestamp value used by the closed witnesses. -/
def dt0 : PyDatetime := PyDatetime.mk 2004 12 31 23 59 58 0

/-- Concrete backend identity used by the closed witnesses. -/
def idn0 : ServerIdentify :=
  ServerIdentify.mk "Repo" "http://repo.example/oai" "2.0" ["admin@example.org"] dt0
    "transient" "YYYY-MM-DDThh:mm:ssZ" (PyCompression.ofList ["identity"])

/-- Concrete identity declaring day granularity. -/
def idnDayGranularity : ServerIdentify :=
  ServerIdentify.mk "Repo" "http://repo.example/oai" "2.0" ["admin@example.org"] dt0
    "transient" "YYYY-MM-DD" (PyCompression.ofList ["identity"])

/-- Concrete identity whose compression list is empty. -/
def idnEmptyCompression : ServerIdentify :=
  ServerIdentify.mk "Repo" "http://repo.example/oai" "2.0" ["admin@example.org"] dt0
    "transient" "YYYY-MM-DDThh:mm:ssZ" (PyCompression.ofList [])

/-- Concrete header with two setSpec entries. -/
def hdrAB : Header := Header.mk "oai:example:1" dt0 ["a:b", "a:c"] false

/-- Concrete backend data used by the closed witnesses. -/
def b0 : BackendData := BackendData.mk idn0 [] [] []

/-- Concrete empty argument set used by the closed witnesses. -/
def a0 : VerbArgs := VerbArgs.mk none none none none none none

/-- Concrete empty registry used by the closed witnesses. -/
def reg0 : Registry := []

/-- Concrete registry holding the default Dublin Core writer. -/
def regDC : Registry := [("oai_dc", oai_dc_writer)]

/-- Concrete record map used by the Dublin Core example, listing creator
before title and containing an unrecognized key. -/
def exampleMapA : MetMap := [("creator", ["B", "C"]), ("bogus", ["X"]), ("title", ["A"])]

/-- The same bindings as `exampleMapA` in the opposite iteration order. -/
def exampleMapB : MetMap := [("title", ["A"]), ("bogus", ["X"]), ("creator", ["B", "C"])]

/-! Helper lemmas shared by the claim theorems. -/

/-- Tag of a constructed element. -/
@[simp] theorem Element.tag_mk (t : String) (a : List (String × String))
    (n : List (Option String × String)) (x : Option String) (c : List Element) :
    Element.tag (Element.mk t a n x c) = t := rfl

/-- Attributes of a constructed element. -/
@[simp] theorem Element.attrs_mk (t : String) (a : List (String × String))
    (n : List (Option String × String)) (x : Option String) (c : List Element) :
    Element.attrs (Element.mk t a n x c) = a := rfl

/-- Namespace bindings of a constructed element. -/
@[simp] theorem Element.nsBindings_mk (t : String) (a : List (String × String))
    (n : List (Option String × String)) (x : Option String) (c : List Element) :
    Element.nsBindings (Element.mk t a n x c) = n := rfl

/-- Text of a constructed element. -/
@[simp] theorem Element.text_mk (t : String) (a : List (String × String))
    (n : List (Option String × String)) (x : Option String) (c : List Element) :
    Element.text (Element.mk t a n x c) = x := rfl

/-- Children of a constructed element. -/
@[simp] theorem Element.children_mk (t : String) (a : List (String × String))
    (n : List (Option String × String)) (x : Option String) (c : List Element) :
    Element.children (Element.mk t a n x c) = c := rfl

/-- Number of Dublin Core field elements: one per value of each listed
field present in the record map. -/
theorem dcElems_length (m : MetMap) :
    ∀ ns : List String,
      (dcElems m ns).length = (ns.map (fun n => (mapGet m n).length)).sum
  | [] => rfl
  | n :: rest => by
      simp [dcElems, dcElems_length m rest]

/-- When the prefix is registered, every record of the backend sequence
is rendered and no error occurs. -/
theorem buildRecordElems_registered (registry : Registry) ( pfx : String)
    (w : WriterFun) (hw : lookupWriter registry pfx = some w) :
    ∀ records : List (Header × MetMap),
      buildRecordElems registry pfx records
        = (records.map
            (fun r => recordElem r.1 (Element.mk (nsoai "metadata") [] [] none [w r.2])),
           none)
  | [] => rfl
  | (h, m) :: rest => by
      simp [buildRecordElems, hw, buildRecordElems_registered registry pfx w hw rest]

/-- C6: the default Dublin Core writer emits elements only for the 15
fixed fields, in fixed field order, one element per value in the map's
list order; absent fields and unrecognized keys produce no element; the
example map yields exactly title, creator, creator regardless of the
map's own iteration order. -/
theorem claim_C6 (m : MetMap) :
    oai_dc_writer m
      = Element.mk (nsoaidc "dc") [(xsiSchemaLocationKey, dcSchemaLocation)] [] none
          (dcElems m dcFieldList)
    ∧ (Element.children (oai_dc_writer m)).length
        = (dcFieldList.map (fun n => (mapGet m n).length)).sum
    ∧ Element.children (oai_dc_writer exampleMapA)
        = [simpleE (nsdc "title") "A", simpleE (nsdc "creator") "B",
           simpleE (nsdc "creator") "C"]
    ∧ oai_dc_writer exampleMapA = oai_dc_writer exampleMapB := by
  refine ⟨rfl, ?_, rfl, rfl⟩
  simpa [oai_dc_writer] using dcElems_length m dcFieldList

/-- C7: a rendered header's children are identifier, the formatted
datestamp, then one setSpec child per entry of the header's setSpec list
in encounter order; the example header with two setSpec entries yields
exactly two setSpec children, in order. -/
theorem claim_C7 (h : Header) :
    headerElem h
      = Element.mk (nsoai "header") [] [] none
          ([simpleE (nsoai "identifier") h.identifier,
            simpleE (nsoai "datestamp") (datetime_to_datestamp h.datestamp)]
            ++ h.setSpec.map (fun s => simpleE (nsoai "setSpec") s))
    ∧ (Element.children (headerElem h)).length = 2 + h.setSpec.length
    ∧ (Element.children (headerElem hdrAB)).filter
          (fun e => Element.tag e == nsoai "setSpec")
        = [simpleE (nsoai "setSpec") "a:b", simpleE (nsoai "setSpec") "a:c"]
    ∧ ((Element.children (headerElem hdrAB)).filter
          (fun e => Element.tag e == nsoai "setSpec")).length = 2 := by
  refine ⟨rfl, ?_, rfl, rfl⟩
  simp [headerElem]
  omega

/-- C10: calling getRecord on the base Server raises NameError, because
its raise statement references the undefined name notImplementedError,
while every other unimplemented backend operation raises
NotImplementedError. -/
theorem claim_C10 :
    Server.getRecord = PyExc.nameError
    ∧ Server.listIdentifiers = PyExc.notImplementedError
    ∧ Server.listMetadataFormats = PyExc.notImplementedError
    ∧ Server.listRecords = PyExc.notImplementedError
    ∧ Server.listSets = PyExc.notImplementedError
    ∧ PyExc.nameError ≠ PyExc.notImplementedError := by
  refine ⟨rfl, rfl, rfl, rfl, rfl, ?_⟩
  intro h
  cases h

/-- C9: the base Server's identify supplies compression as the plain
string identity, which is never equal to the list containing identity,
so the omission branch is not taken and the Identify body ends with one
single-character compression child per character of that string. -/
theorem claim_C9 (n u : String) (es : List String) (ed now : PyDatetime) :
    (Server.identify n u es ed).compression = PyCompression.ofString "identity"
    ∧ PyCompression.ofString "identity" ≠ PyCompression.ofList ["identity"]
    ∧ compressionChildren (PyCompression.ofString "identity")
        = ["i", "d", "e", "n", "t", "i", "t", "y"].map
            (fun c => simpleE (nsoai "compression") c)
    ∧ compressionChildren (PyCompression.ofString "identity") ≠ []
    ∧ (compressionChildren (PyCompression.ofString "identity")).length = 8
    ∧ verbResultOf (identifyTree (Server.identify n u es ed) now)
        = Element.mk (nsoai "Identify") [] [] none
            (identifyFixedChildren (Server.identify n u es ed)
              ++ ["i", "d", "e", "n", "t", "i", "t", "y"].map
                  (fun c => simpleE (nsoai "compression") c)) := by
  refine ⟨rfl, ?_, rfl, ?_, rfl, rfl⟩
  · intro h
    cases h
  · intro h
    cases h

/-- C3 counterexample: for an identity whose compression list is empty,
the Identify response omits all compression children (its body children
are exactly the fixed ones, with no compression child), although the
compression list does not equal the list containing identity — refuting
the claimed if-and-only-if at the concrete input of the empty list. -/
theorem claim_C3_counterexample :
    idnEmptyCompression.compression = PyCompression.ofList []
    ∧ ([] : List String) ≠ ["identity"]
    ∧ compressionChildren (PyCompression.ofList []) = []
    ∧ verbResultOf (identifyTree idnEmptyCompression now0)
        = Element.mk (nsoai "Identify") [] [] none
            (identifyFixedChildren idnEmptyCompression)
    ∧ (Element.children (verbResultOf (identifyTree idnEmptyCompression now0))).filter
          (fun e => Element.tag e == nsoai "compression")
        = [] := by
  refine ⟨rfl, ?_, rfl, rfl, rfl⟩
  intro h
  cases h

/-- C3 as amended: the Identify response omits all compression children
iff the identity's compression list equals exactly the list containing
identity or is empty; for any list other than the former it emits one
compression child per entry, in list order. -/
theorem claim_C3 (idn : ServerIdentify) (now : PyDatetime) (l : List String) :
    verbResultOf (identifyTree idn now)
      = Element.mk (nsoai "Identify") [] [] none
          (identifyFixedChildren idn ++ compressionChildren idn.compression)
    ∧ compressionChildren (PyCompression.ofList l)
        = (if l = ["identity"] then []
           else l.map (fun c => simpleE (nsoai "compression") c))
    ∧ (compressionChildren (PyCompression.ofList l) = []
        ↔ (l = ["identity"] ∨ l = [])) := by
  refine ⟨rfl, rfl, ?_⟩
  by_cases hl : l = ["identity"]
  · simp [compressionChildren, hl]
  · simp [compressionChildren, hl]

/-- C1: the dispatcher normalizes the incoming verb name by lower-casing
only its first character and matches the result against the fixed set of
six verb method names; any verb name whose normalization is not in that
set fails with badVerb and produces no document. -/
theorem claim_C1 (verb : String) (registry : Registry) (b : BackendData)
    (now : PyDatetime) (a : VerbArgs)
    (hv : lowerFirst verb ∉ verbMethodNames) :
    verbMethodNames.length = 6
    ∧ resolveVerb verb = none
    ∧ handleVerb registry b now verb a = Except.error OAIError.badVerb
    ∧ ∀ doc : Element, handleVerb registry b now verb a ≠ Except.ok doc := by
  have hres : resolveVerb verb = none := by
    simp [resolveVerb, hv]
  refine ⟨rfl, hres, ?_, ?_⟩
  · simp [handleVerb, hres]
  · intro doc
    simp [handleVerb, hres]

/-- C1 witness: the verb name GetRecords normalizes to getRecords, which
is not one of the six verb method names, and dispatching it yields
badVerb and no document. -/
theorem claim_C1_witness :
    lowerFirst "GetRecords" ∉ verbMethodNames
    ∧ (verbMethodNames.length = 6
        ∧ resolveVerb "GetRecords" = none
        ∧ handleVerb reg0 b0 now0 "GetRecords" a0 = Except.error OAIError.badVerb
        ∧ ∀ doc : Element, handleVerb reg0 b0 now0 "GetRecords" a0 ≠ Except.ok doc) :=
  ⟨by decide, claim_C1 "GetRecords" reg0 b0 now0 a0 (by decide)⟩

/-- When the prefix is registered, listRecords succeeds and returns the
full document. -/
theorem listRecordsTree_registered (registry : Registry) ( pfx : String)
    (w : WriterFun) (hw : lookupWriter registry pfx = some w)
    (idn : ServerIdentify) (now : PyDatetime)
    (from_ until_ set_ tok : Option String) (records : List (Header × MetMap)) :
    listRecordsTree registry idn now pfx from_ until_ set_ tok records
      = Except.ok
          (appendChild
            (outputEnvelope idn.baseURL now
              [("verb", some "ListRecords"), ("metadataPrefix", some pfx),
               ("from_", from_), ("until", until_), ("set", set_),
               ("resumptionToken", tok)])
            (Element.mk (nsoai "ListRecords") [] [] none
              (records.map (fun r => recordElem r.1
                (Element.mk (nsoai "metadata") [] [] none [w r.2]))))) := by
  simp [listRecordsTree, buildRecordElems_registered registry pfx w hw records]

/-- Any envelope-plus-body document has the fixed root shape. -/
theorem envelopeShape_append (baseURL : String) (now : PyDatetime)
    (kw : List (String × Option String)) (body : Element) :
    envelopeShape (appendChild (outputEnvelope baseURL now kw) body) := by
  refine ⟨rfl, rfl, rfl,
    Element.mk (nsoai "responseDate") [] []
      (some (datetime_to_datestamp (truncateSec now))) [],
    Element.mk (nsoai "request") (requestAttrs kw) [] (some baseURL) [],
    body, rfl, rfl, rfl⟩

/-- C8: a listRecords call whose metadataPrefix is not registered fails
with unsupportedMetadataFormat; at the failure point the current record
holds its fully rendered header and an empty metadata wrapper with no
fragment in it, and the call returns an error, not a document. -/
theorem claim_C8 (registry : Registry) ( pfx : String) (idn : ServerIdentify)
    (now : PyDatetime) (from_ until_ set_ tok : Option String)
    (h : Header) (m : MetMap) (rest : List (Header × MetMap))
    (hw : lookupWriter registry pfx = none) :
    listRecordsTree registry idn now pfx from_ until_ set_ tok ((h, m) :: rest)
      = Except.error OAIError.unsupportedMetadataFormat
    ∧ buildRecordElems registry pfx ((h, m) :: rest)
      = ([recordElem h emptyMetadata], some OAIError.unsupportedMetadataFormat)
    ∧ Element.children (recordElem h emptyMetadata) = [headerElem h, emptyMetadata]
    ∧ Element.children (headerElem h)
        = [simpleE (nsoai "identifier") h.identifier,
           simpleE (nsoai "datestamp") (datetime_to_datestamp h.datestamp)]
          ++ h.setSpec.map (fun s => simpleE (nsoai "setSpec") s)
    ∧ Element.children emptyMetadata = [] := by
  have hb : buildRecordElems registry pfx ((h, m) :: rest)
      = ([recordElem h emptyMetadata], some OAIError.unsupportedMetadataFormat) := by
    simp [buildRecordElems, hw]
  refine ⟨?_, hb, rfl, rfl, rfl⟩
  simp [listRecordsTree, hb]

/-- C8 witness: against the empty registry, a one-record listRecords call
with prefix oai_dc fails as the theorem states. -/
theorem claim_C8_witness :
    lookupWriter reg0 "oai_dc" = none
    ∧ (listRecordsTree reg0 idn0 now0 "oai_dc" none none none none
          [(hdrAB, exampleMapA)]
        = Except.error OAIError.unsupportedMetadataFormat
      ∧ buildRecordElems reg0 "oai_dc" [(hdrAB, exampleMapA)]
        = ([recordElem hdrAB emptyMetadata], some OAIError.unsupportedMetadataFormat)
      ∧ Element.children (recordElem hdrAB emptyMetadata)
        = [headerElem hdrAB, emptyMetadata]
      ∧ Element.children (headerElem hdrAB)
        = [simpleE (nsoai "identifier") hdrAB.identifier,
           simpleE (nsoai "datestamp") (datetime_to_datestamp hdrAB.datestamp)]
          ++ hdrAB.setSpec.map (fun s => simpleE (nsoai "setSpec") s)
      ∧ Element.children emptyMetadata = []) :=
  ⟨rfl, claim_C8 reg0 "oai_dc" idn0 now0 none none none none hdrAB exampleMapA [] rfl⟩

/-- C2: for every verb call, the request element's attributes equal
exactly the supplied non-null arguments in keyword order — no attribute
appears for an omitted argument — with the trailing-underscore argument
name from_ rewritten to the protocol keyword from, and the request
element's text is the repository's base URL. -/
theorem claim_C2 (idn : ServerIdentify) (now : PyDatetime) ( p : String)
    (from_ until_ set_ tok ident : Option String)
    (hs : List Header) (fs : List (String × String × String))
    (registry : Registry) (records : List (Header × MetMap))
    (w : WriterFun) (hw : lookupWriter registry p = some w) :
    requestOf (identifyTree idn now)
      = Element.mk (nsoai "request") [("verb", "Identify")] [] (some idn.baseURL) []
    ∧ requestOf (listIdentifiersTree idn now p from_ until_ set_ tok hs)
      = Element.mk (nsoai "request")
          ([("verb", "ListIdentifiers")] ++ optAttr "from" from_
            ++ [("metadataPrefix", p)] ++ optAttr "until" until_
            ++ optAttr "set" set_ ++ optAttr "resumptionToken" tok)
          [] (some idn.baseURL) []
    ∧ requestOf (listMetadataFormatsTree idn now ident fs)
      = Element.mk (nsoai "request")
          ([("verb", "ListMetadataFormats")] ++ optAttr "identifier" ident)
          [] (some idn.baseURL) []
    ∧ ∃ doc,
        listRecordsTree registry idn now p from_ until_ set_ tok records
          = Except.ok doc
        ∧ requestOf doc
          = Element.mk (nsoai "request")
              ([("verb", "ListRecords"), ("metadataPrefix", p)]
                ++ optAttr "from" from_ ++ optAttr "until" until_
                ++ optAttr "set" set_ ++ optAttr "resumptionToken" tok)
              [] (some idn.baseURL) [] := by
  refine ⟨rfl, ?_, ?_, ?_⟩
  · cases from_ <;> cases until_ <;> cases set_ <;> cases tok <;> rfl
  · cases ident <;> rfl
  · refine ⟨_, listRecordsTree_registered registry p w hw idn now from_ until_ set_ tok
      records, ?_⟩
    cases from_ <;> cases until_ <;> cases set_ <;> cases tok <;> rfl

/-- C2 witness: a concrete mixed call — some optional arguments supplied,
some omitted — against the registry holding the Dublin Core writer. -/
theorem claim_C2_witness :
    lookupWriter regDC "oai_dc" = some oai_dc_writer
    ∧ (requestOf (identifyTree idn0 now0)
        = Element.mk (nsoai "request") [("verb", "Identify")] []
            (some idn0.baseURL) []
      ∧ requestOf (listIdentifiersTree idn0 now0 "oai_dc" (some "2005-01-01T00:00:00Z")
            none (some "a:b") none [hdrAB])
        = Element.mk (nsoai "request")
            ([("verb", "ListIdentifiers")] ++ optAttr "from" (some "2005-01-01T00:00:00Z")
              ++ [("metadataPrefix", "oai_dc")] ++ optAttr "until" none
              ++ optAttr "set" (some "a:b") ++ optAttr "resumptionToken" none)
            [] (some idn0.baseURL) []
      ∧ requestOf (listMetadataFormatsTree idn0 now0 (some "oai:example:1")
            [("oai_dc", "s", "n")])
        = Element.mk (nsoai "request")
            ([("verb", "ListMetadataFormats")] ++ optAttr "identifier" (some "oai:example:1"))
            [] (some idn0.baseURL) []
      ∧ ∃ doc,
          listRecordsTree regDC idn0 now0 "oai_dc" (some "2005-01-01T00:00:00Z") none
              (some "a:b") none [(hdrAB, exampleMapA)]
            = Except.ok doc
          ∧ requestOf doc
            = Element.mk (nsoai "request")
                ([("verb", "ListRecords"), ("metadataPrefix", "oai_dc")]
                  ++ optAttr "from" (some "2005-01-01T00:00:00Z") ++ optAttr "until" none
                  ++ optAttr "set" (some "a:b") ++ optAttr "resumptionToken" none)
                [] (some idn0.baseURL) []) :=
  ⟨rfl, claim_C2 idn0 now0 "oai_dc" (some "2005-01-01T00:00:00Z") none (some "a:b") none
    (some "oai:example:1") [hdrAB] [("oai_dc", "s", "n")] regDC [(hdrAB, exampleMapA)]
    oai_dc_writer rfl⟩

/-- C4: every produced document's root declares exactly the four fixed
namespace bindings and the fixed schema-location attribute, and its
children are, in order: responseDate, request, and exactly one
verb-result element. -/
theorem claim_C4 (idn : ServerIdentify) (now : PyDatetime) ( p : String)
    (from_ until_ set_ tok ident : Option String)
    (hs : List Header) (fs : List (String × String × String))
    (registry : Registry) (records : List (Header × MetMap))
    (w : WriterFun) (hw : lookupWriter registry p = some w) :
    oaiNsmap.length = 4
    ∧ envelopeShape (identifyTree idn now)
    ∧ envelopeShape (listIdentifiersTree idn now p from_ until_ set_ tok hs)
    ∧ envelopeShape (listMetadataFormatsTree idn now ident fs)
    ∧ ∃ doc,
        listRecordsTree registry idn now p from_ until_ set_ tok records
          = Except.ok doc
        ∧ envelopeShape doc := by
  refine ⟨rfl, envelopeShape_append _ _ _ _, envelopeShape_append _ _ _ _,
    envelopeShape_append _ _ _ _,
    _, listRecordsTree_registered registry p w hw idn now from_ until_ set_ tok records,
    envelopeShape_append _ _ _ _⟩

/-- C4 witness: the root shape holds at a concrete call of each verb. -/
theorem claim_C4_witness :
    lookupWriter regDC "oai_dc" = some oai_dc_writer
    ∧ (oaiNsmap.length = 4
      ∧ envelopeShape (identifyTree idn0 now0)
      ∧ envelopeShape (listIdentifiersTree idn0 now0 "oai_dc" none none none none [hdrAB])
      ∧ envelopeShape (listMetadataFormatsTree idn0 now0 none [("oai_dc", "s", "n")])
      ∧ ∃ doc,
          listRecordsTree regDC idn0 now0 "oai_dc" none none none none
              [(hdrAB, exampleMapA)]
            = Except.ok doc
          ∧ envelopeShape doc) :=
  ⟨rfl, claim_C4 idn0 now0 "oai_dc" none none none none none [hdrAB]
    [("oai_dc", "s", "n")] regDC [(hdrAB, exampleMapA)] oai_dc_writer rfl⟩

/-- C5 counterexample: for a backend declaring day granularity, the
responseDate text keeps the full second-granularity form instead of the
day form the declared granularity prescribes — refuting, at this concrete
input, that responseDate is formatted per the repository's declared
granularity. -/
theorem claim_C5_counterexample :
    idnDayGranularity.granularity = "YYYY-MM-DD"
    ∧ Element.text (responseDateOf (identifyTree idnDayGranularity now0))
        = some "2006-05-04T03:02:01Z"
    ∧ formatPerGranularity idnDayGranularity.granularity (truncateSec now0)
        = "2006-05-04"
    ∧ Element.text (responseDateOf (identifyTree idnDayGranularity now0))
        ≠ some (formatPerGranularity idnDayGranularity.granularity (truncateSec now0)) := by
  refine ⟨rfl, rfl, rfl, ?_⟩
  decide

/-- C5 as amended: for every verb call, responseDate is the current
wall-clock time with microseconds zeroed, always rendered in the fixed
second-granularity datestamp form, regardless of the repository's
declared granularity. -/
theorem claim_C5 (idn : ServerIdentify) (now : PyDatetime) ( p : String)
    (from_ until_ set_ tok ident : Option String)
    (hs : List Header) (fs : List (String × String × String))
    (registry : Registry) (records : List (Header × MetMap))
    (w : WriterFun) (hw : lookupWriter registry p = some w) :
    (truncateSec now).microsecond = 0
    ∧ Element.text (responseDateOf (identifyTree idn now))
        = some (datetime_to_datestamp (truncateSec now))
    ∧ Element.text (responseDateOf (listIdentifiersTree idn now p from_ until_ set_ tok hs))
        = some (datetime_to_datestamp (truncateSec now))
    ∧ Element.text (responseDateOf (listMetadataFormatsTree idn now ident fs))
        = some (datetime_to_datestamp (truncateSec now))
    ∧ ∃ doc,
        listRecordsTree registry idn now p from_ until_ set_ tok records
          = Except.ok doc
        ∧ Element.text (responseDateOf doc)
          = some (datetime_to_datestamp (truncateSec now)) := by
  exact ⟨rfl, rfl, rfl, rfl,
    _, listRecordsTree_registered registry p w hw idn now from_ until_ set_ tok records,
    rfl⟩

/-- C5 witness: the amended statement at a concrete instant and a
concrete call of each verb. -/
theorem claim_C5_witness :
    lookupWriter regDC "oai_dc" = some oai_dc_writer
    ∧ ((truncateSec now0).microsecond = 0
      ∧ Element.text (responseDateOf (identifyTree idn0 now0))
          = some (datetime_to_datestamp (truncateSec now0))
      ∧ Element.text (responseDateOf
            (listIdentifiersTree idn0 now0 "oai_dc" none none none none [hdrAB]))
          = some (datetime_to_datestamp (truncateSec now0))
      ∧ Element.text (responseDateOf
            (listMetadataFormatsTree idn0 now0 none [("oai_dc", "s", "n")]))
          = some (datetime_to_datestamp (truncateSec now0))
      ∧ ∃ doc,
          listRecordsTree regDC idn0 now0 "oai_dc" none none none none
              [(hdrAB, exampleMapA)]
            = Except.ok doc
          ∧ Element.text (responseDateOf doc)
            = some (datetime_to_datestamp (truncateSec now0))) :=
  ⟨rfl, claim_C5 idn0 now0 "oai_dc" none none none none none [hdrAB]
    [("oai_dc", "s", "n")] regDC [(hdrAB, exampleMapA)] oai_dc_writer rfl⟩
